import Mathlib

/-!
Verification development for the incident-orchestration core of the
Hackathon-Project--Agentic-Orchestration repository.

The Python source is shallowly embedded: pure functions become Lean
functions, Python dicts of numeric metrics become association lists over
`String × ℚ`, Python floats become `ℚ` (the algorithms only compare and
add, so exact rationals model them), datetimes become rational
timestamps passed as explicit parameters, and the stateful pipeline
becomes explicit state passing over an `Incident` record.  Network,
LLM, printing and wall-clock side effects are out of scope of the core
(spec section 6); the outputs of the four evidence/triage/hypothesis/
experiment collaborator stages are therefore passed to the orchestrator
as explicit inputs, exactly as the orchestrator consumes their result
dictionaries.
-/

namespace IncidentAutopilot

attribute [local semireducible] Rat.ofScientific Rat.mul Rat.inv Rat.add Rat.sub

/-- Python `str.lower()`, defined structurally over the character list
so that concrete evaluations reduce. -/
def strLower (s : String) : String :=
  String.mk (s.data.map Char.toLower)

/-- Python substring test `needle in hay` over strings. -/
def containsSub (hay needle : String) : Bool :=
  hay.toList.tails.any (fun t => needle.toList.isPrefixOf t)

/-- Python `int()` applied to a float/rational: truncation toward zero.
For a normalized rational, `num.tdiv den` truncates toward zero. -/
def pyInt (q : ℚ) : ℤ :=
  q.num.tdiv (q.den : ℤ)

/-- Python `round()` to an integer: round half to even. -/
def pyRoundInt (x : ℚ) : ℤ :=
  let f := ⌊x⌋
  let r := x - (f : ℚ)
  if r < 1/2 then f
  else if 1/2 < r then f + 1
  else if f % 2 = 0 then f else f + 1

/-- Python `round(x, 2)`. -/
def pyRound2 (x : ℚ) : ℚ :=
  (pyRoundInt (x * 100) : ℚ) / 100

/-- A Python dict of numeric metrics, in insertion order. -/
abbrev MetricsMap := List (String × ℚ)

/-- `d.get(k)` on a metrics dict. -/
def mget (m : MetricsMap) (k : String) : Option ℚ :=
  (m.find? (fun kv => kv.1 == k)).map (fun kv => kv.2)

/-- `d.get(k, default)` on a metrics dict. -/
def mgetD (m : MetricsMap) (k : String) (d : ℚ) : ℚ :=
  (mget m k).getD d

/-- Python `a or b` on floats: `a` is falsy exactly when it is `0.0`. -/
def pyOrQ (a b : ℚ) : ℚ :=
  if a == 0 then b else a

/-- Python `s or default` on an optional string (`None` and `""` are falsy). -/
def pyOrS (a : Option String) (b : String) : String :=
  match a with
  | some s => if s == "" then b else s
  | none => b

/-- Python truthiness of an optional string. -/
def strTruthy (a : Option String) : Bool :=
  match a with
  | some s => !(s == "")
  | none => false

/-! ## Domain model (src/core/models.py) -/

inductive IncidentType where
  | latency_spike
  | error_rate
  | resource_saturation
  | queue_depth
  | unknown
deriving BEq, DecidableEq, Repr

def IncidentType.value : IncidentType → String
  | .latency_spike => "latency_spike"
  | .error_rate => "error_rate_increase"
  | .resource_saturation => "resource_saturation"
  | .queue_depth => "queue_depth_growth"
  | .unknown => "unknown"

inductive IncidentSeverity where
  | critical
  | high
  | medium
  | low
deriving BEq, DecidableEq, Repr

inductive AgentStage where
  | detection
  | scout
  | triage
  | hypothesis
  | experiment
  | executor
  | postcheck
  | completed
  | failed
deriving BEq, DecidableEq, Repr

inductive MitigationType where
  | rollback
  | scale_up
  | scale_down
  | feature_flag_disable
  | traffic_shed
  | restart_service
deriving BEq, DecidableEq, Repr

def MitigationType.value : MitigationType → String
  | .rollback => "rollback"
  | .scale_up => "scale_up"
  | .scale_down => "scale_down"
  | .feature_flag_disable => "feature_flag_disable"
  | .traffic_shed => "traffic_shed"
  | .restart_service => "restart_service"

/-- The action-specific `parameters` dict of a Mitigation.  The source
stores a heterogeneous dict; each selector branch writes one of these
shapes, and synthetic mitigations may carry an empty dict. -/
inductive MitigationParams where
  | empty
  | rollbackP (current_version : String) (target_version : String)
      (deploy_ref : Option String)
  | scaleUpP (current_replicas : ℤ) (target_replicas : ℤ)
      (scale_factor : ℚ) (signal : String)
  | featureFlagP (feature : String) (fallback : String) (previous_state : Bool)
  | restartP (strategy : String) (max_unavailable : ℤ) (reason : String)
deriving BEq, DecidableEq, Repr

/-- `parameters.get("target_replicas", 0)`. -/
def MitigationParams.getTargetReplicas : MitigationParams → ℤ
  | .scaleUpP _ t _ _ => t
  | _ => 0

/-- `parameters.get("signal")`, present only on scale-up parameters. -/
def MitigationParams.signalOf : MitigationParams → Option String
  | .scaleUpP _ _ _ s => some s
  | _ => none

/-- `parameters.get("target_version")`, present only on rollback parameters. -/
def MitigationParams.targetVersionOf : MitigationParams → Option String
  | .rollbackP _ t _ => some t
  | _ => none

structure Mitigation where
  type : MitigationType
  description : String
  parameters : MitigationParams
  reversible : Bool := true
  estimated_impact : String
  risk_level : String
  requires_approval : Bool := false
deriving BEq, DecidableEq, Repr

structure GuardrailCheck where
  passed : Bool
  reason : String
  policy_violated : Option String := none
deriving BEq, DecidableEq, Repr

structure IncidentMetrics where
  detection_latency_seconds : ℚ := 0
  triage_accuracy : ℚ := 0
  time_to_mitigation_seconds : ℚ := 0
  mitigation_success : Bool := false
  false_positive : Bool := false
deriving BEq, DecidableEq, Repr

/-- A recent-deploy record; only the `version` and `commit` keys of the
source dicts are ever read by the core. -/
structure Deploy where
  version : Option String := none
  commit : Option String := none
deriving BEq, DecidableEq, Repr

structure Evidence where
  metrics : MetricsMap := []
  logs : List String := []
  recent_deploys : List Deploy := []
  traces : List String := []
  dependencies : List String := []
deriving Repr

structure Hypothesis where
  description : String
  confidence : ℚ
  evidence_needed : List String := []
  validation_criteria : String := ""
deriving BEq, DecidableEq, Repr

structure ExperimentResult where
  hypothesis_id : ℤ
  validated : Bool
  findings : String
  confidence : ℚ
deriving BEq, DecidableEq, Repr

/-- A timeline entry; the wall-clock `timestamp` written by the source is
environment input and is abstracted away, the data payload is kept as
stringified key/value pairs. -/
structure TimelineEvent where
  stage : String
  message : String
  data : List (String × String) := []
deriving BEq, DecidableEq, Repr

structure Incident where
  id : String
  service_name : String
  start_time : ℚ
  end_time : Option ℚ := none
  stage : AgentStage := .detection
  severity : IncidentSeverity := .medium
  incident_type : IncidentType := .unknown
  evidence : Option Evidence := none
  hypotheses : List Hypothesis := []
  experiments : List ExperimentResult := []
  proposed_mitigation : Option Mitigation := none
  applied_mitigation : Option Mitigation := none
  mitigation_approved : Bool := false
  metrics_recovered : Bool := false
  incident_summary : String := ""
  metrics : IncidentMetrics := {}
  timeline : List TimelineEvent := []
deriving Repr

def Incident.add_timeline_event (i : Incident) (stage message : String)
    (data : List (String × String) := []) : Incident :=
  { i with timeline := i.timeline ++ [{ stage := stage, message := message, data := data }] }

/-! ## Guardrail engine (src/core/guardrails.py) -/

structure GuardrailConfig where
  max_scale_replicas : ℤ := 10
  max_scale_factor : ℚ := 3
  require_approval_for : List String := ["rollback", "scale_down", "restart_service"]
  allow_auto_mitigation : Bool := false
  production_requires_approval : Bool := true
  max_concurrent_mitigations : ℤ := 1
  rollback_window_hours : ℤ := 24
deriving Repr

/-- `GuardrailEngine._default_config`. -/
def defaultConfig : GuardrailConfig := {}

/-- `GuardrailEngine.check_mitigation`.  The Python method mutates
`mitigation.requires_approval` in place; the embedding returns the check
together with the possibly-updated mitigation. -/
def check_mitigation (cfg : GuardrailConfig) (mitigation : Mitigation)
    (_severity : IncidentSeverity) (service_name : String) :
    GuardrailCheck × Mitigation :=
  -- Check 1: Reversibility requirement
  if !mitigation.reversible then
    ({ passed := false,
       reason := "Non-reversible mitigations are not allowed",
       policy_violated := some "reversibility_required" }, mitigation)
  else
    -- Check 2: High-risk actions require approval
    let mitigation :=
      if cfg.require_approval_for.contains mitigation.type.value &&
          !cfg.allow_auto_mitigation then
        { mitigation with requires_approval := true }
      else mitigation
    -- Checks 4 and 5 (check 5 on critical severity is a no-op in the source)
    let finish : Mitigation → GuardrailCheck × Mitigation := fun m =>
      let m :=
        if (containsSub (strLower service_name) "production" ||
            containsSub (strLower service_name) "prod") &&
            cfg.production_requires_approval then
          { m with requires_approval := true }
        else m
      ({ passed := true, reason := "All guardrail checks passed",
         policy_violated := none }, m)
    -- Check 3: Scale limits
    if mitigation.type == .scale_up then
      let target_replicas := mitigation.parameters.getTargetReplicas
      if target_replicas > cfg.max_scale_replicas then
        let mx := cfg.max_scale_replicas
        ({ passed := false,
           reason := s!"Target replicas {target_replicas} exceeds max {mx}",
           policy_violated := some "max_scale_replicas" }, mitigation)
      else finish mitigation
    else finish mitigation

/-! ## Executor agent (src/agents/executor.py) -/

/-- The `service_state` context dict read by the executor.  The pipeline
never places one in its context, so every field defaults to absent. -/
structure ServiceState where
  replicas : Option ℤ := none
  environment : Option String := none
  feature_flags : List (String × Bool) := []
  restart_strategy : Option String := none
  max_unavailable : Option ℤ := none
deriving Repr

/-- Runbook dict, as key/stringified-value pairs in insertion order. -/
abbrev Runbooks := List (String × String)

/-- `ExecutorAgent._flatten_runbooks`. -/
def flatten_runbooks (runbooks : Runbooks) : String :=
  let parts := (runbooks.filter
    (fun kv => !(kv.1 == "source") && !(kv.1 == "full_content"))).map (fun kv => kv.2)
  strLower (String.intercalate " " parts)

/-- `ExecutorAgent._mentions_deploy`. -/
def mentions_deploy (text : String) : Bool :=
  let t := strLower text
  containsSub t "deploy" || containsSub t "deployment" ||
    containsSub t "rollout" || containsSub t "release"

/-- `ExecutorAgent._current_and_previous_versions`. -/
def current_and_previous_versions (deploys : List Deploy) :
    String × Option String :=
  let current_v :=
    match deploys.head? with
    | some d => d.version.getD "unknown"
    | none => "unknown"
  let prev_v :=
    match deploys.get? 1 with
    | some d => d.version
    | none => none
  (current_v, prev_v)

/-- `ExecutorAgent._choose_feature_flag`. -/
def choose_feature_flag (service_state : ServiceState) (rb_text : String) :
    String × String :=
  let flags := service_state.feature_flags
  let rb := rb_text
  if containsSub rb "cache" || containsSub rb "redis" then
    ("cache-integration", "direct-db-access")
  else
    match flags.head? with
    | some kv => (kv.1, "safe-fallback")
    | none => ("noncritical-feature", "safe-fallback")

/-- `ExecutorAgent._scale_signal`. -/
def scale_signal (metrics : MetricsMap) : String :=
  let cpu := mgetD metrics "cpu_usage" 0
  let mem := mgetD metrics "memory_usage" 0
  let lat := mgetD metrics "latency_p99" 0
  let q := mgetD metrics "queue_depth" 0
  if cpu > 85 || mem > 85 then "resource_saturation"
  else if q > 1000 then "queue_pressure"
  else if lat > 1500 then "latency_pressure"
  else "mixed_signals"

/-- Resource-pressure step of the bump escalation in
`ExecutorAgent._compute_scale_target`. -/
def bstepResource (cpu mem : ℚ) (b : ℤ) : ℤ :=
  if cpu > 90 ∨ mem > 90 then max b 3
  else if cpu > 85 ∨ mem > 85 then max b 2
  else b

/-- Latency-pressure step of the bump escalation. -/
def bstepLatency (lat : ℚ) (b : ℤ) : ℤ :=
  if lat > 3000 then max b 3
  else if lat > 2000 then max b 2
  else b

/-- Queue-pressure step of the bump escalation. -/
def bstepQueue (q : ℚ) (b : ℤ) : ℤ :=
  if q > 2000 then max b 3
  else if q > 1000 then max b 2
  else b

/-- Error-pressure step of the bump escalation. -/
def bstepError (err : ℚ) (b : ℤ) : ℤ :=
  if err > 5 then max b 2
  else b

/-- The bump computed by `ExecutorAgent._compute_scale_target` from the
five pressure signals, starting at `default_bump`. -/
def scale_bump (cpu mem lat q err : ℚ) (default_bump : ℤ) : ℤ :=
  bstepError err (bstepQueue q (bstepLatency lat (bstepResource cpu mem default_bump)))

/-- `ExecutorAgent._compute_scale_target`. -/
def compute_scale_target (cfg : GuardrailConfig) (metrics : MetricsMap)
    (current_replicas : ℤ) (default_bump : ℤ := 2) : ℤ :=
  let cpu := mgetD metrics "cpu_usage" 0
  let mem := mgetD metrics "memory_usage" 0
  let lat := mgetD metrics "latency_p99" 0
  let q := mgetD metrics "queue_depth" 0
  let err := mgetD metrics "error_rate" 0
  let bump := scale_bump cpu mem lat q err default_bump
  let target := current_replicas + bump
  let target := min target cfg.max_scale_replicas
  let target :=
    if current_replicas > 0 then
      min target (pyInt ((current_replicas : ℚ) * cfg.max_scale_factor))
    else target
  max target (current_replicas + 1)

/-- `ExecutorAgent._propose_mitigation`. -/
def propose_mitigation (cfg : GuardrailConfig) (incident_type : IncidentType)
    (root_cause : String) (evidence : Option Evidence)
    (service_state : ServiceState) (runbooks : Runbooks)
    (service_name : String) : Mitigation :=
  let metrics := match evidence with | some e => e.metrics | none => []
  let deploys := match evidence with | some e => e.recent_deploys | none => []
  let current_replicas := service_state.replicas.getD 3
  let env := strLower (pyOrS service_state.environment "demo")
  let rb_text := flatten_runbooks runbooks
  let prefer_rollback := containsSub rb_text "rollback" || containsSub rb_text "roll back"
  let prefer_scale := containsSub rb_text "scale" || containsSub rb_text "replica" ||
    containsSub rb_text "autoscal"
  let prefer_disable := containsSub rb_text "feature flag" || containsSub rb_text "disable" ||
    containsSub rb_text "degrade"
  -- Rules 2 to 5, used directly and as the fall-through of rule 1
  let rest : Mitigation :=
    -- Rule 2: resource saturation to scale up
    if incident_type == .resource_saturation ||
        containsSub (strLower root_cause) "resource" ||
        containsSub (strLower root_cause) "memory" || prefer_scale then
      let target_replicas := compute_scale_target cfg metrics current_replicas
      let sf := pyRound2 ((target_replicas : ℚ) / ((max current_replicas 1 : ℤ) : ℚ))
      { type := .scale_up,
        description := s!"Scale {service_name} from {current_replicas} to {target_replicas} replicas to reduce saturation",
        parameters := .scaleUpP current_replicas target_replicas sf (scale_signal metrics),
        reversible := true,
        estimated_impact := "Adds capacity to distribute load and reduce latency/errors.",
        risk_level := "low",
        requires_approval := false }
    -- Rule 3: dependency failure to feature flag disable
    else if containsSub (strLower root_cause) "dependency" ||
        containsSub (strLower root_cause) "downstream" || prefer_disable then
      let fp := choose_feature_flag service_state rb_text
      let feature := fp.1
      let fallback := fp.2
      let previous_state := (service_state.feature_flags.lookup feature).getD true
      { type := .feature_flag_disable,
        description := s!"Disable feature \x27{feature}\x27 to reduce dependency pressure and use fallback \x27{fallback}\x27",
        parameters := .featureFlagP feature fallback previous_state,
        reversible := true,
        estimated_impact := "Reduces calls to failing dependency; may degrade non-critical functionality.",
        risk_level := "low",
        requires_approval := false }
    -- Rule 4: elevated error rate to restart service
    else if incident_type == .error_rate then
      let strategy := service_state.restart_strategy.getD "rolling"
      let max_unavailable := service_state.max_unavailable.getD 1
      { type := .restart_service,
        description := "Rolling restart of service pods to clear transient connection issues",
        parameters := .restartP strategy max_unavailable "high_error_rate",
        reversible := true,  -- kept reversible so guardrails do not hard-block
        estimated_impact := "Brief interruption per pod; may clear stuck connections/pools.",
        risk_level := "medium",
        requires_approval := false }
    -- Rule 5: default conservative scale-up
    else
      let target_replicas := compute_scale_target cfg metrics current_replicas 1
      let sf := pyRound2 ((target_replicas : ℚ) / ((max current_replicas 1 : ℤ) : ℚ))
      { type := .scale_up,
        description := s!"Conservative scale-up of {service_name} from {current_replicas} to {target_replicas} replicas",
        parameters := .scaleUpP current_replicas target_replicas sf "conservative_default",
        reversible := true,
        estimated_impact := "Adds a small amount of capacity as a safe first step.",
        risk_level := "low",
        requires_approval := false }
  -- Rule 1: deployment regression to rollback (falls through to `rest`
  -- when the previous version is not resolvable)
  if mentions_deploy root_cause || (prefer_rollback && !deploys.isEmpty) then
    let cp := current_and_previous_versions deploys
    let current_v := cp.1
    let prev_v := cp.2
    if strTruthy prev_v then
      let pv := prev_v.getD ""
      let deploy_ref := match deploys.head? with
        | some d => d.commit
        | none => none
      let m : Mitigation :=
        { type := .rollback,
          description := s!"Rollback {service_name} from {current_v} to {pv}",
          parameters := .rollbackP current_v pv deploy_ref,
          reversible := true,
          estimated_impact := "Return service to last known stable version (may briefly impact traffic).",
          risk_level := "medium",
          requires_approval := false }
      if env == "prod" || env == "production" then
        { m with requires_approval := true }
      else m
    else rest
  else rest

/-- The result dict of `ExecutorAgent.execute`; the Retool approval
webhook and the Freepik visualization are outbound network calls with no
effect on incident state and are not modelled. -/
structure ExecResult where
  mitigation : Option Mitigation
  guardrail_check : GuardrailCheck
  status : String
  reason : Option String := none
  requires_approval : Option Bool := none
deriving Repr

/-- `ExecutorAgent.execute`. -/
def executor_execute (cfg : GuardrailConfig) (incident : Incident)
    (most_likely : Option ExperimentResult) (hypotheses : List Hypothesis)
    (evidence : Option Evidence) (service_state : ServiceState)
    (runbooks : Runbooks) : ExecResult :=
  let hypothesis : Option Hypothesis :=
    match most_likely with
    | some ml =>
      if !hypotheses.isEmpty && 0 ≤ ml.hypothesis_id &&
          ml.hypothesis_id < (hypotheses.length : ℤ) then
        hypotheses.get? ml.hypothesis_id.toNat
      else hypotheses.head?
    | none => hypotheses.head?
  let root_cause := (hypothesis.map (fun h => h.description)).getD ""
  let mitigation := propose_mitigation cfg incident.incident_type root_cause
    evidence service_state runbooks incident.service_name
  let cm := check_mitigation cfg mitigation incident.severity incident.service_name
  let guardrail_check := cm.1
  let mitigation := cm.2
  if !guardrail_check.passed then
    { mitigation := none, guardrail_check := guardrail_check,
      status := "blocked", reason := some guardrail_check.reason }
  else
    { mitigation := some mitigation, guardrail_check := guardrail_check,
      status := "proposed", requires_approval := some mitigation.requires_approval }

/-- The result dict of `ExecutorAgent.apply_mitigation`; `applied_at` is
the wall-clock timestamp string, passed in as environment input. -/
structure ApplyResult where
  success : Bool
  mitigation_type : String
  applied_at : String
  message : String
deriving Repr

/-- `ExecutorAgent.apply_mitigation`: the simulated apply, which always
succeeds. -/
def apply_mitigation (mitigation : Mitigation) (_service_name : String)
    (applied_at : String) : ApplyResult :=
  let tv := mitigation.type.value
  { success := true,
    mitigation_type := tv,
    applied_at := applied_at,
    message := s!"Successfully applied {tv}" }

/-! ## Postcheck agent (src/agents/postcheck.py) -/

def IncidentSeverity.value : IncidentSeverity → String
  | .critical => "critical"
  | .high => "high"
  | .medium => "medium"
  | .low => "low"

/-- One per-metric entry of the `checks` dict built by
`PostcheckAgent._check_recovery` (the cpu/memory entries carry no
baseline key). -/
structure MetricCheck where
  recovered : Bool
  baseline : Option ℚ := none
  current : ℚ
deriving BEq, DecidableEq, Repr

structure RecoveryStatus where
  recovered : Bool
  checks : List (String × MetricCheck)
deriving BEq, DecidableEq, Repr

/-- `PostcheckAgent._check_recovery`. -/
def check_recovery (baseline current : MetricsMap) : RecoveryStatus :=
  let s0 : List (String × MetricCheck) × Bool := ([], true)
  -- Check latency
  let s1 :=
    match mget current "latency_p99" with
    | some _ =>
      let baseline_p99 := mgetD baseline "latency_p99" 200
      let current_p99 := mgetD current "latency_p99" 0
      let latency_ok := decide (current_p99 ≤ baseline_p99 * 1.2)
      (s0.1 ++ [("latency",
        ({ recovered := latency_ok, baseline := some baseline_p99,
           current := current_p99 } : MetricCheck))], s0.2 && latency_ok)
    | none => s0
  -- Check error rate
  let s2 :=
    match mget current "error_rate" with
    | some _ =>
      let baseline_errors := mgetD baseline "error_rate" 0.1
      let current_errors := mgetD current "error_rate" 0
      let errors_ok := decide (current_errors ≤ baseline_errors * 2)
      (s1.1 ++ [("error_rate",
        ({ recovered := errors_ok, baseline := some baseline_errors,
           current := current_errors } : MetricCheck))], s1.2 && errors_ok)
    | none => s1
  -- Check resource usage
  let s3 :=
    match mget current "cpu_usage" with
    | some _ =>
      let current_cpu := mgetD current "cpu_usage" 0
      let cpu_ok := decide (current_cpu < 80)
      (s2.1 ++ [("cpu",
        ({ recovered := cpu_ok, current := current_cpu } : MetricCheck))],
        s2.2 && cpu_ok)
    | none => s2
  let s4 :=
    match mget current "memory_usage" with
    | some _ =>
      let current_memory := mgetD current "memory_usage" 0
      let memory_ok := decide (current_memory < 80)
      (s3.1 ++ [("memory",
        ({ recovered := memory_ok, current := current_memory } : MetricCheck))],
        s3.2 && memory_ok)
    | none => s3
  { recovered := s4.2, checks := s4.1 }

/-- Rendering of a per-metric check entry inside the report (Python
prints the raw dict; its exact repr formatting is abstracted). -/
def MetricCheck.render (c : MetricCheck) : String :=
  let r := toString c.recovered
  let cur := toString c.current
  match c.baseline with
  | some b =>
    let bs := toString b
    s!"recovered={r}, baseline={bs}, current={cur}"
  | none => s!"recovered={r}, current={cur}"

/-- `PostcheckAgent._generate_summary`.  Wall-clock formatting
(`isoformat`, float formatting) is abstracted by printing the rational
timestamps directly. -/
def generate_summary (incident : Incident) (recovery_status : RecoveryStatus)
    (most_likely : Option ExperimentResult) : String :=
  let iid := incident.id
  let svc := incident.service_name
  let tyv := incident.incident_type.value
  let sev := incident.severity.value
  let st := toString incident.start_time
  let et := match incident.end_time with
    | some t => toString t
    | none => "ongoing"
  let durLine := match incident.end_time with
    | some t =>
      let d := toString (pyRoundInt (t - incident.start_time))
      s!"**Duration**: {d}s"
    | none => "ongoing"
  let header := [
    s!"# Incident Report: {iid}",
    "",
    s!"**Service**: {svc}",
    s!"**Type**: {tyv}",
    s!"**Severity**: {sev}",
    s!"**Start Time**: {st}",
    s!"**End Time**: {et}",
    durLine,
    "",
    "## Timeline"]
  let timelineLines := incident.timeline.map (fun e =>
    let stg := e.stage
    let msg := e.message
    s!"- **{stg}**: {msg}")
  let root_cause_text := (most_likely.map (fun ml => ml.findings)).getD "Unknown"
  let mit := match incident.applied_mitigation with
    | some m => m.description
    | none => "None"
  let recLine := if recovery_status.recovered then " Metrics recovered"
    else "Metrics not fully recovered"
  let mid := ["", "## Root Cause", root_cause_text, "",
    "## Mitigation Applied", mit, "", "## Recovery Status", recLine, "",
    "## Metrics"]
  let checkLines := recovery_status.checks.map (fun kv =>
    let nm := kv.1
    let status := if kv.2.recovered then "Recovered" else "Not Recovered"
    let rendered := kv.2.render
    s!"- {status} {nm}: {rendered}")
  let tail := ["", "## Recommendations",
    "- Review deployment process to catch issues in canary phase",
    "- Add more comprehensive monitoring for early detection",
    "- Update runbooks based on this incident"]
  String.intercalate "\n" (header ++ timelineLines ++ mid ++ checkLines ++ tail)

/-- The result dict of `PostcheckAgent.execute`. -/
structure PostcheckResult where
  metrics_recovered : Bool
  recovery_details : RecoveryStatus
  incident_summary : String
  time_to_mitigation : ℚ
  success : Bool
deriving Repr

/-- `PostcheckAgent.execute`.  The method sets `incident.end_time` when
it is still unset, so the possibly-updated incident is returned with the
result; `now` is the wall clock read for that purpose. -/
def postcheck_execute (incident : Incident) (baseline current : MetricsMap)
    (most_likely : Option ExperimentResult) (now : ℚ) :
    PostcheckResult × Incident :=
  let recovery_status := check_recovery baseline current
  let summary := generate_summary incident recovery_status most_likely
  let step : ℚ × Incident :=
    match incident.end_time with
    | some et => (et - incident.start_time, incident)
    | none =>
      let incident := { incident with end_time := some now }
      (now - incident.start_time, incident)
  ({ metrics_recovered := recovery_status.recovered,
     recovery_details := recovery_status,
     incident_summary := summary,
     time_to_mitigation := step.1,
     success := recovery_status.recovered }, step.2)

/-! ## Pipeline orchestrator (src/core/pipeline.py)

Stages scout/triage/hypothesis/experiment call out-of-scope
collaborators (document fetching, LLM classification).  Their result
dictionaries are modelled as explicit inputs; the orchestrator code that
consumes them is embedded faithfully. -/

/-- Result dict of `ScoutAgent.execute` as consumed by the pipeline. -/
structure ScoutResult where
  evidence : Evidence
  runbooks : Runbooks := []
  summary : String := ""
deriving Repr

/-- Result dict of `TriageAgent.execute` as consumed by the pipeline. -/
structure TriageResult where
  incident_type : IncidentType
  confidence : ℚ
  reasoning : String := ""
deriving Repr

/-- Result dict of `HypothesisAgent.execute` as consumed by the pipeline. -/
structure HypothesisResult where
  hypotheses : List Hypothesis
  summary : String := ""
deriving Repr

/-- Result dict of `ExperimentAgent.execute` as consumed by the pipeline. -/
structure ExperimentStageResult where
  experiment_results : List ExperimentResult
  most_likely_cause : ExperimentResult
  summary : String := ""
deriving Repr

/-- The four collaborator-stage outputs threaded through one run. -/
structure StageOutputs where
  scout : ScoutResult
  triage : TriageResult
  hypothesis : HypothesisResult
  experiment : ExperimentStageResult
deriving Repr

/-- `IncidentPipeline._run_scout`. -/
def pipeline_run_scout (incident : Incident) (result : ScoutResult) : Incident :=
  let incident := { incident with stage := .scout }
  let incident := { incident with evidence := some result.evidence }
  let mc := toString result.evidence.metrics.length
  let lc := toString result.evidence.logs.length
  incident.add_timeline_event "scout" result.summary
    [("metrics_count", mc), ("logs_count", lc)]

/-- `IncidentPipeline._run_triage`. -/
def pipeline_run_triage (incident : Incident) (result : TriageResult) : Incident :=
  let incident := { incident with stage := .triage }
  let incident := { incident with incident_type := result.incident_type }
  let incident :=
    { incident with metrics := { incident.metrics with triage_accuracy := result.confidence } }
  let tv := result.incident_type.value
  let cf := toString result.confidence
  incident.add_timeline_event "triage" result.reasoning
    [("type", tv), ("confidence", cf)]

/-- `IncidentPipeline._run_hypothesis`. -/
def pipeline_run_hypothesis (incident : Incident) (result : HypothesisResult) : Incident :=
  let incident := { incident with stage := .hypothesis }
  let incident := { incident with hypotheses := result.hypotheses }
  let n := toString result.hypotheses.length
  incident.add_timeline_event "hypothesis" result.summary [("count", n)]

/-- `IncidentPipeline._run_experiment`. -/
def pipeline_run_experiment (incident : Incident) (result : ExperimentStageResult) : Incident :=
  let incident := { incident with stage := .experiment }
  let incident := { incident with experiments := result.experiment_results }
  let vc := toString (result.experiment_results.filter (fun r => r.validated)).length
  incident.add_timeline_event "experiment" result.summary [("validated_count", vc)]

/-- `IncidentPipeline._run_executor`.  `mitigation_time` is the elapsed
`time.time() - detection_start` read at the apply, and `applied_at` the
timestamp string produced inside `apply_mitigation`. -/
def pipeline_run_executor (incident : Incident) (result : ExecResult)
    (auto_approve : Bool) (mitigation_time : ℚ) (applied_at : String) : Incident :=
  let incident := { incident with stage := .executor }
  if result.status == "blocked" then
    incident.add_timeline_event "executor" "Mitigation blocked by guardrails"
      [("reason", (result.reason).getD "")]
  else
    match result.mitigation with
    | none => incident  -- not reachable from executor_execute (proved below)
    | some mitigation =>
      let incident := { incident with proposed_mitigation := some mitigation }
      -- Check if approval needed: the source only prints a waiting
      -- message, appends a timeline event, sleeps one second and then
      -- proceeds to apply regardless ("AUTO-APPROVED for demo")
      let incident :=
        if mitigation.requires_approval && !auto_approve then
          let tv := mitigation.type.value
          incident.add_timeline_event "executor"
            "Mitigation proposed, awaiting approval" [("mitigation_type", tv)]
        else incident
      -- Apply mitigation
      let apply_result := apply_mitigation mitigation incident.service_name applied_at
      if apply_result.success then
        let incident :=
          { incident with metrics :=
            { incident.metrics with time_to_mitigation_seconds := mitigation_time } }
        let incident := { incident with applied_mitigation := some mitigation }
        let incident := { incident with mitigation_approved := true }
        let tv := mitigation.type.value
        let mt := toString mitigation_time
        incident.add_timeline_event "executor" "Mitigation applied successfully"
          [("mitigation_type", tv), ("time_to_mitigation", mt)]
      else
        incident

/-- `IncidentPipeline._simulate_recovery`. -/
def simulate_recovery (current_metrics : MetricsMap) : MetricsMap :=
  [("latency_p50", 150), ("latency_p95", 250), ("latency_p99", 400),
   ("error_rate", 0.2), ("cpu_usage", 45), ("memory_usage", 60),
   ("request_rate", mgetD current_metrics "request_rate" 100),
   ("queue_depth", 50)]

/-- `IncidentPipeline._run_postcheck`; `now` is the wall clock passed to
the postcheck agent for its end-time fallback. -/
def pipeline_run_postcheck (incident : Incident)
    (current_metrics baseline_metrics : MetricsMap)
    (most_likely : Option ExperimentResult) (now : ℚ) : Incident :=
  let incident := { incident with stage := .postcheck }
  -- Simulate metrics improving after mitigation
  let recovered_metrics := simulate_recovery current_metrics
  let pr := postcheck_execute incident baseline_metrics recovered_metrics most_likely now
  let result := pr.1
  let incident := pr.2
  let incident := { incident with metrics_recovered := result.metrics_recovered }
  let incident := { incident with incident_summary := result.incident_summary }
  let rv := toString result.metrics_recovered
  incident.add_timeline_event "postcheck" "Recovery verification complete"
    [("recovered", rv)]

/-- `IncidentPipeline.run`, happy path.  The try/except wrapper only
fires when a collaborator raises, which is outside the embedded core;
every embedded operation is total.  `detection_start`, `t_apply` and
`t_end` are the successive `time.time()`/`utcnow` reads. -/
def pipeline_run (_cfg : GuardrailConfig) (incident : Incident)
    (current_metrics baseline_metrics : MetricsMap) (auto_approve : Bool)
    (outs : StageOutputs) (exec_result : ExecResult)
    (detection_start t_apply t_end : ℚ) (applied_at : String) : Incident :=
  let incident := pipeline_run_scout incident outs.scout
  let incident := pipeline_run_triage incident outs.triage
  let incident := pipeline_run_hypothesis incident outs.hypothesis
  let incident := pipeline_run_experiment incident outs.experiment
  let incident := pipeline_run_executor incident exec_result auto_approve
    (t_apply - detection_start) applied_at
  let incident := pipeline_run_postcheck incident current_metrics
    baseline_metrics (some outs.experiment.most_likely_cause) t_end
  -- Mark as completed
  let incident := { incident with stage := .completed, end_time := some t_end }
  let m := incident.metrics
  let m := { m with detection_latency_seconds := 2.5 }
  let m :=
    if m.time_to_mitigation_seconds == 0 then
      { m with time_to_mitigation_seconds := t_end - detection_start }
    else m
  let m := { m with mitigation_success := incident.metrics_recovered }
  let incident := { incident with metrics := m }
  incident.add_timeline_event "completed" "Incident pipeline completed successfully"

/-- `IncidentPipeline.run` with the executor stage result computed from
the embedded `ExecutorAgent.execute` on the context the pipeline has
built by stage five (the pipeline never puts a `service_state` in the
context, so the executor reads the empty default). -/
def pipeline_run_full (cfg : GuardrailConfig) (incident : Incident)
    (current_metrics baseline_metrics : MetricsMap) (auto_approve : Bool)
    (outs : StageOutputs) (service_state : ServiceState)
    (detection_start t_apply t_end : ℚ) (applied_at : String) : Incident :=
  let i4 := pipeline_run_experiment
    (pipeline_run_hypothesis
      (pipeline_run_triage
        (pipeline_run_scout incident outs.scout) outs.triage)
      outs.hypothesis) outs.experiment
  let exec_result := executor_execute cfg i4
    (some outs.experiment.most_likely_cause) outs.hypothesis.hypotheses
    (some outs.scout.evidence) service_state outs.scout.runbooks
  pipeline_run cfg incident current_metrics baseline_metrics auto_approve
    outs exec_result detection_start t_apply t_end applied_at

/-! ## Approval endpoint (src/api.py, approve_mitigation) -/

/-- The HTTP outcome of `POST /api/incidents/.../approve`. -/
inductive ApproveResponse where
  | notFound                                    -- 404 Incident not found
  | noMitigation                                -- 400 No mitigation proposed
  | alreadyApplied (mitigation : Mitigation)    -- idempotent early return
  | applyFailed (message : String)              -- 500 Mitigation apply failed
  | applied (recovered : Bool) (mitigation : Mitigation)
deriving BEq, DecidableEq, Repr

def ApproveResponse.isApplyFailed : ApproveResponse → Bool
  | .applyFailed _ => true
  | _ => false

/-- `approve_mitigation` of src/api.py.  The store lookup result is the
`Option Incident` input and the final store content is the returned
incident; `approved_at` and `now` are the `time.time()` reads around the
apply, `t_end` the terminal `utcnow`, and `applied_at` the timestamp
string of the simulated apply. -/
def approve_mitigation (incident? : Option Incident)
    (approved_at now t_end : ℚ) (applied_at : String) :
    ApproveResponse × Option Incident :=
  match incident? with
  | none => (.notFound, none)
  | some incident =>
    match incident.proposed_mitigation with
    | none => (.noMitigation, some incident)
    | some pm =>
      -- If already applied, keep idempotent
      match incident.applied_mitigation with
      | some am => (.alreadyApplied am, some incident)
      | none =>
        let incident := { incident with mitigation_approved := true }
        let tv := pm.type.value
        let incident := incident.add_timeline_event "approval"
          "Human approved proposed mitigation" [("mitigation_type", tv)]
        let approved_at_ts := approved_at
        let apply_result := apply_mitigation pm incident.service_name applied_at
        if !apply_result.success then
          let incident := { incident with stage := .failed }
          let incident := incident.add_timeline_event "executor"
            "Mitigation apply failed" []
          (.applyFailed apply_result.message, some incident)
        else
          -- Update incident state
          let incident := { incident with applied_mitigation := some pm }
          let incident := { incident with stage := .postcheck }
          -- getattr(incident.metrics, "pipeline_start_ts", 0.0):
          -- IncidentMetrics has no pipeline_start_ts field, so getattr
          -- always yields the 0.0 default, and the Python `or` then
          -- falls back to approved_at_ts
          let start_ts := pyOrQ 0 approved_at_ts
          let incident :=
            if incident.metrics.time_to_mitigation_seconds == (0 : ℚ) then
              { incident with metrics :=
                { incident.metrics with
                  time_to_mitigation_seconds := max 0 (now - start_ts) } }
            else incident
          let ttmv : ℚ := incident.metrics.time_to_mitigation_seconds
          let ttm := toString ttmv
          let incident := incident.add_timeline_event "executor"
            "Mitigation applied after human approval"
            [("mitigation_type", tv), ("applied_at", applied_at),
             ("time_to_mitigation", ttm)]
          -- context: current_metrics = {}, baseline_metrics = {},
          -- most_likely_cause = None
          let incident := pipeline_run_postcheck incident [] [] none t_end
          -- Mark completion
          let incident :=
            { incident with
              stage := if incident.metrics_recovered then .completed else .failed,
              end_time := some t_end }
          let incident :=
            { incident with metrics :=
              { incident.metrics with mitigation_success := incident.metrics_recovered } }
          let incident := incident.add_timeline_event
            (if incident.metrics_recovered then "completed" else "failed")
            (if incident.metrics_recovered then
              "Incident completed after human approval"
            else "Incident failed after human approval")
          (.applied incident.metrics_recovered pm, some incident)

/-! ## Concrete scenarios

Fixtures used to evaluate the embedded code on concrete inputs: an
end-to-end run on a production service with a rollback needing approval
(spec scenario B), a run whose proposed scale-up is blocked by a small
`max_scale_replicas` configuration, and a paused incident for the
approval endpoint. -/

def incB : Incident :=
  { id := "INC-B", service_name := "payment-service-prod", start_time := 1000 }

def evB : Evidence :=
  { metrics := [("latency_p99", 2500)], logs := ["slow query"],
    recent_deploys := [{ version := some "v1.2.3", commit := some "abc123" },
                       { version := some "v1.2.2" }] }

def mlB : ExperimentResult :=
  { hypothesis_id := 0, validated := true,
    findings := "Deployment correlates with spike", confidence := 0.85 }

def hypB : Hypothesis :=
  { description := "Recent deployment introduced slow queries", confidence := 0.8 }

def outsB : StageOutputs :=
  { scout := { evidence := evB, runbooks := [], summary := "Gathered evidence" },
    triage := { incident_type := .latency_spike, confidence := 0.9,
                reasoning := "Latency spike detected" },
    hypothesis := { hypotheses := [hypB], summary := "1 hypothesis" },
    experiment := { experiment_results := [mlB], most_likely_cause := mlB,
                    summary := "Validated 1/1" } }

/-- The incident state after the four collaborator stages of scenario B. -/
def incB4 : Incident :=
  pipeline_run_experiment
    (pipeline_run_hypothesis
      (pipeline_run_triage
        (pipeline_run_scout incB outsB.scout) outsB.triage)
      outsB.hypothesis) outsB.experiment

/-- The executor-stage result of scenario B. -/
def execB : ExecResult :=
  executor_execute defaultConfig incB4 (some outsB.experiment.most_likely_cause)
    outsB.hypothesis.hypotheses (some outsB.scout.evidence) {} outsB.scout.runbooks

/-- Scenario B run with `auto_approve = false`. -/
def runB : Incident :=
  pipeline_run_full defaultConfig incB [("latency_p99", 2500)]
    [("latency_p99", 350), ("error_rate", 0.15)] false outsB {} 1000 1005 1010 "tsB"

def cfgC : GuardrailConfig := { max_scale_replicas := 2 }

def incC : Incident :=
  { id := "INC-C", service_name := "checkout-service", start_time := 2000 }

def evC : Evidence := { metrics := [("cpu_usage", 92), ("memory_usage", 89)] }

def mlC : ExperimentResult :=
  { hypothesis_id := 0, validated := true, findings := "Workers saturated",
    confidence := 0.8 }

def hypC : Hypothesis :=
  { description := "Traffic surge saturating workers", confidence := 0.7 }

def outsC : StageOutputs :=
  { scout := { evidence := evC, runbooks := [], summary := "Gathered evidence" },
    triage := { incident_type := .resource_saturation, confidence := 0.85,
                reasoning := "Resource saturation" },
    hypothesis := { hypotheses := [hypC], summary := "1 hypothesis" },
    experiment := { experiment_results := [mlC], most_likely_cause := mlC,
                    summary := "Validated 1/1" } }

/-- A run whose proposed scale-up target (4 replicas) exceeds the
configured `max_scale_replicas = 2`, so the guardrail check fails. -/
def runC : Incident :=
  pipeline_run_full cfgC incC [("cpu_usage", 92)] [] false outsC {} 2000 2004 2008 "tsC"

def mitD : Mitigation :=
  { type := .rollback,
    description := "Rollback payment-service-prod from v1.2.3 to v1.2.2",
    parameters := .rollbackP "v1.2.3" "v1.2.2" (some "abc123"),
    reversible := true, estimated_impact := "Return to stable version",
    risk_level := "medium", requires_approval := true }

/-- An incident paused at the executor stage with a proposed but not yet
applied mitigation, as the approval endpoint expects to find it.  The
pipeline for this incident started at t = 1000. -/
def incD : Incident :=
  { id := "INC-D", service_name := "payment-service-prod", start_time := 1000,
    stage := .executor, proposed_mitigation := some mitD }

/-- The same incident after a first successful approval call: the
mitigation is recorded as applied. -/
def incE : Incident :=
  { incD with applied_mitigation := some mitD, mitigation_approved := true }

/-- A synthetic irreversible mitigation for the reversibility guardrail. -/
def mitIrrev : Mitigation :=
  { type := .scale_down, description := "Scale down to 1 replica",
    parameters := .empty, reversible := false,
    estimated_impact := "Reduces capacity", risk_level := "high" }

/-- Evidence with a single deploy record: no previous version exists. -/
def evSingle : Evidence :=
  { recent_deploys := [{ version := some "v1.2.3", commit := some "c1" }] }

/-! ## Theorems -/

/-- C3: for every Mitigation with `reversible = false`, and any
configuration, severity (including critical) and service name,
`check_mitigation` returns `passed = false` with
`policy_violated = "reversibility_required"`. -/
theorem guardrail_irreversible_always_blocked (cfg : GuardrailConfig)
    (m : Mitigation) (sev : IncidentSeverity) (svc : String)
    (h : m.reversible = false) :
    (check_mitigation cfg m sev svc).1 =
      { passed := false,
        reason := "Non-reversible mitigations are not allowed",
        policy_violated := some "reversibility_required" } := by
  simp [check_mitigation, h]

/-- Witness for C3: a synthetic irreversible mitigation is blocked even
for a critical incident on a production service. -/
theorem guardrail_irreversible_always_blocked_witness :
    (check_mitigation defaultConfig mitIrrev .critical "payment-service-prod").1 =
      { passed := false,
        reason := "Non-reversible mitigations are not allowed",
        policy_violated := some "reversibility_required" } :=
  guardrail_irreversible_always_blocked defaultConfig mitIrrev .critical
    "payment-service-prod" rfl

/-- C10: the simulated apply always returns `success = true`, so the
apply-failure branches are unreachable: the approval endpoint never
returns its 500 apply-failed outcome, and the pipeline executor stage
always records the proposed mitigation as applied. -/
theorem apply_mitigation_always_succeeds :
    (∀ (m : Mitigation) (svc ts : String),
       (apply_mitigation m svc ts).success = true)
    ∧ (∀ (inc : Incident) (t1 t2 t3 : ℚ) (s : String),
        (approve_mitigation (some inc) t1 t2 t3 s).1.isApplyFailed = false)
    ∧ (∀ (inc : Incident) (gc : GuardrailCheck) (r : Option String)
        (ra : Option Bool) (m : Mitigation) (aa : Bool) (mt : ℚ) (ts : String),
        (pipeline_run_executor inc
          { mitigation := some m, guardrail_check := gc, status := "proposed",
            reason := r, requires_approval := ra } aa mt ts).applied_mitigation =
          some m) := by
  refine ⟨fun m svc ts => rfl, fun inc t1 t2 t3 s => ?_,
    fun inc gc r ra m aa mt ts => ?_⟩
  · unfold approve_mitigation
    cases hp : inc.proposed_mitigation with
    | none => simp [hp, ApproveResponse.isApplyFailed]
    | some pm =>
      cases ha : inc.applied_mitigation with
      | some am => simp [hp, ha, ApproveResponse.isApplyFailed]
      | none => simp [hp, ha, apply_mitigation, ApproveResponse.isApplyFailed]
  · simp [pipeline_run_executor, apply_mitigation, Incident.add_timeline_event]

/-- C6: calling the approval endpoint on an incident whose
`applied_mitigation` is already set is idempotent: it returns the
already-applied result and leaves the stored incident (state and
timeline) unchanged. -/
theorem approve_mitigation_idempotent (inc : Incident) (pm am : Mitigation)
    (t1 t2 t3 : ℚ) (s : String)
    (hp : inc.proposed_mitigation = some pm)
    (ha : inc.applied_mitigation = some am) :
    approve_mitigation (some inc) t1 t2 t3 s = (.alreadyApplied am, some inc) := by
  simp only [approve_mitigation, hp, ha]

/-- Witness for C6: a second approval call on the already-applied
incident returns the applied mitigation and the unchanged incident. -/
theorem approve_mitigation_idempotent_witness :
    approve_mitigation (some incE) 6000 6001 6002 "tsE" =
      (.alreadyApplied mitD, some incE) :=
  approve_mitigation_idempotent incE mitD mitD 6000 6001 6002 "tsE" rfl rfl

/-- C7 (code bug): on the first approval call for incident `incD`, whose
pipeline started at t = 1000, with the approval at t = 5000 and the
apply-time clock read at t = 5003, the code stores
`time_to_mitigation_seconds = 3` — elapsed time from the approval
timestamp, not from the pipeline start (which would be about 4003
seconds), because `IncidentMetrics` has no `pipeline_start_ts` field and
the `getattr` fallback always selects `approved_at_ts`.  The incident is
still advanced through postcheck to a terminal stage. -/
theorem approve_time_from_approval_bug :
    incD.start_time = 1000
    ∧ ((approve_mitigation (some incD) 5000 5003 5010 "tsD").2.map
        (fun i => i.metrics.time_to_mitigation_seconds)) = some 3
    ∧ ((approve_mitigation (some incD) 5000 5003 5010 "tsD").2.map
        (fun i => i.stage)) = some .failed
    ∧ ((approve_mitigation (some incD) 5000 5003 5010 "tsD").2.map
        (fun i => i.applied_mitigation)) = some (some mitD) := by
  refine ⟨rfl, ?_, ?_, ?_⟩ <;> rfl

/-- C1 (code bug): in scenario B the guardrail check passes, the
proposed rollback has `requires_approval = true`, and the caller did not
set `auto_approve`; yet the pipeline run does not pause at the executor
stage — after appending the awaiting-approval event it auto-approves for
demo, applies the mitigation, sets `mitigation_approved = true` and runs
to `stage = completed`. -/
theorem pipeline_applies_without_approval_bug :
    execB.status = "proposed"
    ∧ execB.guardrail_check.passed = true
    ∧ (execB.mitigation.map (fun m => m.requires_approval)) = some true
    ∧ (runB.timeline.any
        (fun e => e.message == "Mitigation proposed, awaiting approval")) = true
    ∧ runB.stage = .completed
    ∧ runB.applied_mitigation.isSome = true
    ∧ runB.mitigation_approved = true := by
  refine ⟨rfl, rfl, rfl, ?_, rfl, rfl, rfl⟩
  rfl

/-- C2 (code bug): in the blocked run `runC` the guardrail rejection
appends the blocked timeline event and no mitigation is proposed or
applied, but the run does not stop at the executor stage: `run`
unconditionally continues into postcheck and marks the incident
`completed`, appending the success event. -/
theorem pipeline_blocked_run_completes_bug :
    (runC.timeline.any
      (fun e => e.message == "Mitigation blocked by guardrails")) = true
    ∧ runC.proposed_mitigation = none
    ∧ runC.applied_mitigation = none
    ∧ runC.mitigation_approved = false
    ∧ runC.stage = .completed
    ∧ (runC.timeline.any
        (fun e => e.message == "Incident pipeline completed successfully")) = true := by
  refine ⟨?_, rfl, rfl, rfl, rfl, ?_⟩ <;> rfl

/-- C4 counterexample: with the default configuration and
`current_replicas = 10`, the computed target is 11, which exceeds
`min(max_scale_replicas, current_replicas * max_scale_factor) = 10`:
the claimed upper bound fails because the final
`max(target, current_replicas + 1)` floor is applied after the clamps. -/
theorem scale_target_upper_bound_cex :
    (1 : ℤ) ≤ 10
    ∧ compute_scale_target defaultConfig [] 10 2 = 11
    ∧ decide (compute_scale_target defaultConfig [] 10 2 ≤
        min defaultConfig.max_scale_replicas
          (pyInt ((10 : ℚ) * defaultConfig.max_scale_factor))) = false := by
  refine ⟨by decide, by decide, by decide⟩

/-- C4 (amended): for every metrics map and `current_replicas ≥ 1`, the
target satisfies the lower bound `current_replicas + 1 ≤ target`
unconditionally, and the upper bound
`target ≤ min(max_scale_replicas, int(current_replicas × max_scale_factor))`
whenever that cap is itself at least `current_replicas + 1` (the final
floor `max(target, current_replicas + 1)` overrides the caps when they
leave no room to add a replica). -/
theorem scale_target_bounds (cfg : GuardrailConfig) (metrics : MetricsMap)
    (c db : ℤ) (hc : 1 ≤ c) :
    c + 1 ≤ compute_scale_target cfg metrics c db
    ∧ (c + 1 ≤ min cfg.max_scale_replicas (pyInt ((c : ℚ) * cfg.max_scale_factor)) →
        compute_scale_target cfg metrics c db ≤
          min cfg.max_scale_replicas (pyInt ((c : ℚ) * cfg.max_scale_factor))) := by
  have hpos : c > 0 := by omega
  simp only [compute_scale_target, if_pos hpos]
  constructor
  · exact le_max_right _ _
  · intro h
    apply max_le _ h
    apply le_min
    · exact le_trans (min_le_left _ _) (min_le_right _ _)
    · exact min_le_right _ _

/-- Witness for C4 (amended): with the default configuration,
3 replicas and empty metrics the target is 5, between 4 and
min(10, 9) = 9. -/
theorem scale_target_bounds_witness :
    (4 : ℤ) ≤ compute_scale_target defaultConfig [] 3 2
    ∧ ((4 : ℤ) ≤ min defaultConfig.max_scale_replicas
          (pyInt ((3 : ℚ) * defaultConfig.max_scale_factor)) →
        compute_scale_target defaultConfig [] 3 2 ≤
          min defaultConfig.max_scale_replicas
            (pyInt ((3 : ℚ) * defaultConfig.max_scale_factor))) :=
  scale_target_bounds defaultConfig [] 3 2 (by decide)

/-- Monotonicity of a two-tier escalation step under weakening of its
threshold conditions. -/
theorem stepIte_mono (p q p1 q1 : Prop) [Decidable p] [Decidable q]
    [Decidable p1] [Decidable q1] (hp : p → p1) (hq : q → q1) (b : ℤ) :
    (if p then max b 3 else if q then max b 2 else b) ≤
      (if p1 then max b 3 else if q1 then max b 2 else b) := by
  by_cases h1 : p <;> by_cases h2 : q <;> by_cases h3 : p1 <;>
    by_cases h4 : q1 <;> simp [h1, h2, h3, h4] <;>
    first
      | omega
      | exact absurd (hp h1) h3
      | exact absurd (hq h2) h4

/-- Monotonicity of a one-tier escalation step under weakening of its
threshold condition. -/
theorem stepIteOne_mono (p p1 : Prop) [Decidable p] [Decidable p1]
    (hp : p → p1) (b : ℤ) :
    (if p then max b 2 else b) ≤ (if p1 then max b 2 else b) := by
  by_cases h1 : p <;> by_cases h2 : p1 <;> simp [h1, h2] <;>
    first
      | omega
      | exact absurd (hp h1) h2

/-- The resource step never lowers the bump when its inputs grow. -/
theorem bstepResource_mono_sig {cpu mem cpu' mem' : ℚ} (hc : cpu ≤ cpu')
    (hm : mem ≤ mem') (b : ℤ) :
    bstepResource cpu mem b ≤ bstepResource cpu' mem' b := by
  unfold bstepResource
  exact stepIte_mono _ _ _ _
    (fun h => h.elim (fun h => Or.inl (lt_of_lt_of_le h hc))
      (fun h => Or.inr (lt_of_lt_of_le h hm)))
    (fun h => h.elim (fun h => Or.inl (lt_of_lt_of_le h hc))
      (fun h => Or.inr (lt_of_lt_of_le h hm))) b

/-- The resource step is monotone in the incoming bump. -/
theorem bstepResource_mono_b (cpu mem : ℚ) {b b' : ℤ} (h : b ≤ b') :
    bstepResource cpu mem b ≤ bstepResource cpu mem b' := by
  unfold bstepResource
  split_ifs <;> omega

/-- A generic two-tier threshold step never lowers the bump when its
signal grows. -/
theorem twoTier_mono_sig (t1 t2 : ℚ) {x y : ℚ} (hxy : x ≤ y) (b : ℤ) :
    (if x > t1 then max b 3 else if x > t2 then max b 2 else b) ≤
      (if y > t1 then max b 3 else if y > t2 then max b 2 else b) :=
  stepIte_mono _ _ _ _ (fun h => lt_of_lt_of_le h hxy)
    (fun h => lt_of_lt_of_le h hxy) b

/-- A generic two-tier threshold step is monotone in the incoming bump. -/
theorem twoTier_mono_b (t1 t2 : ℚ) (x : ℚ) {b b' : ℤ} (h : b ≤ b') :
    (if x > t1 then max b 3 else if x > t2 then max b 2 else b) ≤
      (if x > t1 then max b' 3 else if x > t2 then max b' 2 else b') := by
  split_ifs <;> omega

theorem bstepLatency_mono_sig {lat lat' : ℚ} (h : lat ≤ lat') (b : ℤ) :
    bstepLatency lat b ≤ bstepLatency lat' b :=
  twoTier_mono_sig 3000 2000 h b

theorem bstepLatency_mono_b (lat : ℚ) {b b' : ℤ} (h : b ≤ b') :
    bstepLatency lat b ≤ bstepLatency lat b' :=
  twoTier_mono_b 3000 2000 lat h

theorem bstepQueue_mono_sig {q q' : ℚ} (h : q ≤ q') (b : ℤ) :
    bstepQueue q b ≤ bstepQueue q' b :=
  twoTier_mono_sig 2000 1000 h b

theorem bstepQueue_mono_b (q : ℚ) {b b' : ℤ} (h : b ≤ b') :
    bstepQueue q b ≤ bstepQueue q b' :=
  twoTier_mono_b 2000 1000 q h

theorem bstepError_mono_sig {e e' : ℚ} (h : e ≤ e') (b : ℤ) :
    bstepError e b ≤ bstepError e' b := by
  unfold bstepError
  exact stepIteOne_mono _ _ (fun h1 => lt_of_lt_of_le h1 h) b

theorem bstepError_mono_b (e : ℚ) {b b' : ℤ} (h : b ≤ b') :
    bstepError e b ≤ bstepError e b' := by
  unfold bstepError
  split_ifs <;> omega

/-- The full bump escalation is jointly monotone in the five signals. -/
theorem scale_bump_mono {cpu mem lat q err cpu' mem' lat' q' err' : ℚ}
    (db : ℤ) (h1 : cpu ≤ cpu') (h2 : mem ≤ mem') (h3 : lat ≤ lat')
    (h4 : q ≤ q') (h5 : err ≤ err') :
    scale_bump cpu mem lat q err db ≤ scale_bump cpu' mem' lat' q' err' db := by
  unfold scale_bump
  have s1 : bstepResource cpu mem db ≤ bstepResource cpu' mem' db :=
    bstepResource_mono_sig h1 h2 db
  have s2 : bstepLatency lat (bstepResource cpu mem db) ≤
      bstepLatency lat' (bstepResource cpu' mem' db) :=
    le_trans (bstepLatency_mono_b lat s1) (bstepLatency_mono_sig h3 _)
  have s3 : bstepQueue q (bstepLatency lat (bstepResource cpu mem db)) ≤
      bstepQueue q' (bstepLatency lat' (bstepResource cpu' mem' db)) :=
    le_trans (bstepQueue_mono_b q s2) (bstepQueue_mono_sig h4 _)
  exact le_trans (bstepError_mono_b err s3) (bstepError_mono_sig h5 _)

/-- C8: the scale-target computation is monotone non-decreasing in each
pressure signal: if one metrics map dominates another on the five
signals read by the computation (in particular if they agree on four of
them and one increases), the computed target does not decrease. -/
theorem scale_target_monotone (cfg : GuardrailConfig) (m1 m2 : MetricsMap)
    (c db : ℤ)
    (hcpu : mgetD m1 "cpu_usage" 0 ≤ mgetD m2 "cpu_usage" 0)
    (hmem : mgetD m1 "memory_usage" 0 ≤ mgetD m2 "memory_usage" 0)
    (hlat : mgetD m1 "latency_p99" 0 ≤ mgetD m2 "latency_p99" 0)
    (hq : mgetD m1 "queue_depth" 0 ≤ mgetD m2 "queue_depth" 0)
    (herr : mgetD m1 "error_rate" 0 ≤ mgetD m2 "error_rate" 0) :
    compute_scale_target cfg m1 c db ≤ compute_scale_target cfg m2 c db := by
  have hb := scale_bump_mono db hcpu hmem hlat hq herr
  simp only [compute_scale_target]
  split_ifs with h0
  · exact max_le_max
      (min_le_min (min_le_min (by omega) le_rfl) le_rfl) le_rfl
  · exact max_le_max (min_le_min (by omega) le_rfl) le_rfl

/-- Witness for C8: raising cpu pressure from 86 to 92 with all other
signals fixed does not decrease the target. -/
theorem scale_target_monotone_witness :
    compute_scale_target defaultConfig [("cpu_usage", 86)] 3 2 ≤
      compute_scale_target defaultConfig [("cpu_usage", 92)] 3 2 :=
  scale_target_monotone defaultConfig [("cpu_usage", 86)] [("cpu_usage", 92)]
    3 2 (by decide) (by decide) (by decide) (by decide) (by decide)

/-- C5: the recovery check evaluates exactly the metrics present in the
current snapshot — the latency entry exists iff `latency_p99` is present
and holds `current ≤ baseline × 1.2` with default baseline 200, the
error-rate entry exists iff `error_rate` is present and holds
`current ≤ baseline × 2` with default baseline 0.1, the cpu/memory
entries exist iff present and hold `current < 80` with no baseline — and
the overall verdict is the conjunction of the evaluated checks (absent
metrics contribute nothing). -/
theorem check_recovery_characterization (b c : MetricsMap) :
    ((check_recovery b c).recovered =
      (check_recovery b c).checks.all (fun p => p.2.recovered))
    ∧ ((check_recovery b c).checks.lookup "latency" =
        (mget c "latency_p99").map (fun v =>
          ({ recovered := decide (v ≤ mgetD b "latency_p99" 200 * 1.2),
             baseline := some (mgetD b "latency_p99" 200),
             current := v } : MetricCheck)))
    ∧ ((check_recovery b c).checks.lookup "error_rate" =
        (mget c "error_rate").map (fun v =>
          ({ recovered := decide (v ≤ mgetD b "error_rate" 0.1 * 2),
             baseline := some (mgetD b "error_rate" 0.1),
             current := v } : MetricCheck)))
    ∧ ((check_recovery b c).checks.lookup "cpu" =
        (mget c "cpu_usage").map (fun v =>
          ({ recovered := decide (v < 80), baseline := none,
             current := v } : MetricCheck)))
    ∧ ((check_recovery b c).checks.lookup "memory" =
        (mget c "memory_usage").map (fun v =>
          ({ recovered := decide (v < 80), baseline := none,
             current := v } : MetricCheck))) := by
  rcases hl : mget c "latency_p99" with _ | vl <;>
  rcases he : mget c "error_rate" with _ | ve <;>
  rcases hcpu : mget c "cpu_usage" with _ | vc <;>
  rcases hmem : mget c "memory_usage" with _ | vm <;>
    simp [check_recovery, mgetD, hl, he, hcpu, hmem, List.lookup,
      Bool.and_assoc]

/-- Auxiliary: a truthy optional string stays truthy after the
`getD ""` extraction the selector performs. -/
theorem strTruthy_getD {p : Option String} (h : strTruthy p = true) :
    strTruthy (some (p.getD "")) = true := by
  cases p <;> simp_all [strTruthy]

/-- C9 (amended): the selector never emits a rollback whose target
version is missing or empty; when the deployment branch triggers with no
resolvable previous version it falls through to the remaining rules
(2 to 5), and if none of rules 2 to 4 matches either, the result is the
rule-5 default conservative scale-up. -/
theorem propose_no_unverifiable_rollback :
    (∀ (cfg : GuardrailConfig) (it : IncidentType) (rc : String)
       (ev : Option Evidence) (ss : ServiceState) (rb : Runbooks) (sn : String),
       (propose_mitigation cfg it rc ev ss rb sn).type = .rollback →
       strTruthy
         ((propose_mitigation cfg it rc ev ss rb sn).parameters.targetVersionOf) =
         true)
    ∧ (∀ (cfg : GuardrailConfig) (it : IncidentType) (rc : String)
       (ev : Evidence) (ss : ServiceState) (rb : Runbooks) (sn : String),
       mentions_deploy rc = true →
       strTruthy (current_and_previous_versions ev.recent_deploys).2 = false →
       (it == .resource_saturation) = false →
       containsSub (strLower rc) "resource" = false →
       containsSub (strLower rc) "memory" = false →
       containsSub (flatten_runbooks rb) "scale" = false →
       containsSub (flatten_runbooks rb) "replica" = false →
       containsSub (flatten_runbooks rb) "autoscal" = false →
       containsSub (strLower rc) "dependency" = false →
       containsSub (strLower rc) "downstream" = false →
       containsSub (flatten_runbooks rb) "feature flag" = false →
       containsSub (flatten_runbooks rb) "disable" = false →
       containsSub (flatten_runbooks rb) "degrade" = false →
       (it == .error_rate) = false →
       (propose_mitigation cfg it rc (some ev) ss rb sn).type = .scale_up
       ∧ (propose_mitigation cfg it rc (some ev) ss rb sn).parameters.signalOf =
           some "conservative_default"
       ∧ (propose_mitigation cfg it rc (some ev) ss rb
             sn).parameters.getTargetReplicas =
           compute_scale_target cfg ev.metrics (ss.replicas.getD 3) 1) := by
  constructor
  · intro cfg it rc ev ss rb sn h
    simp only [propose_mitigation] at h ⊢
    split_ifs at h ⊢ with h1 h2 h3 h4 h5 h6 h7 <;>
      simp_all [MitigationParams.targetVersionOf]
    all_goals exact strTruthy_getD (by assumption)
  · intro cfg it rc ev ss rb sn hdep hprev hres hrc1 hrc2 hrb1 hrb2 hrb3
      hrc3 hrc4 hrb4 hrb5 hrb6 herr
    simp [propose_mitigation, hdep, hprev, hres, hrc1, hrc2, hrb1, hrb2,
      hrb3, hrc3, hrc4, hrb4, hrb5, hrb6, herr,
      MitigationParams.signalOf, MitigationParams.getTargetReplicas]

/-- Witness for C9 (amended): the scenario-B rollback carries target
version v1.2.2, and a deploy-mentioning root cause with a single deploy
and no other matching rule yields the rule-5 conservative scale-up. -/
theorem propose_no_unverifiable_rollback_witness :
    strTruthy ((propose_mitigation defaultConfig .latency_spike
      "Recent deployment introduced slow queries" (some evB) {} []
      "payment-service-prod").parameters.targetVersionOf) = true
    ∧ ((propose_mitigation defaultConfig .unknown "bad deploy" (some evSingle)
        {} [] "checkout-service").type = .scale_up
      ∧ (propose_mitigation defaultConfig .unknown "bad deploy" (some evSingle)
          {} [] "checkout-service").parameters.signalOf =
          some "conservative_default"
      ∧ (propose_mitigation defaultConfig .unknown "bad deploy" (some evSingle)
          {} [] "checkout-service").parameters.getTargetReplicas =
          compute_scale_target defaultConfig evSingle.metrics
            (({} : ServiceState).replicas.getD 3) 1) :=
  ⟨propose_no_unverifiable_rollback.1 defaultConfig .latency_spike
      "Recent deployment introduced slow queries" (some evB) {} []
      "payment-service-prod" (by rfl),
   propose_no_unverifiable_rollback.2 defaultConfig .unknown "bad deploy"
      evSingle {} [] "checkout-service" (by rfl) (by rfl) (by rfl) (by rfl)
      (by rfl) (by rfl) (by rfl) (by rfl) (by rfl) (by rfl) (by rfl) (by rfl)
      (by rfl) (by rfl)⟩

/-- C9 counterexample: with root cause "Recent deployment broke the
downstream dependency" and a single-entry deploy history, the
deployment branch triggers and no previous version is resolvable, but
the selector lands on rule 3 (feature-flag disable), not on rule 5
(the default conservative scale-up). -/
theorem propose_fallthrough_not_rule5_cex :
    mentions_deploy "Recent deployment broke the downstream dependency" = true
    ∧ evSingle.recent_deploys.length = 1
    ∧ (propose_mitigation defaultConfig .latency_spike
        "Recent deployment broke the downstream dependency" (some evSingle) {}
        [] "checkout-service").type = .feature_flag_disable
    ∧ ((propose_mitigation defaultConfig .latency_spike
        "Recent deployment broke the downstream dependency" (some evSingle) {}
        [] "checkout-service").type == .scale_up) = false := by
  refine ⟨by rfl, by rfl, by rfl, by rfl⟩

end IncidentAutopilot
